import Mathlib

/-!
Shallow embedding of the quantum-computation MCP server (src/server.py) and
proofs about its intent classifier, circuit builder, execution dispatcher,
service registry and result formatter.

Strings are Lean `String`s; the Python helpers (`str.lower`, the substring
operator `in`, `re.findall` of digit runs) are embedded below as executable
functions on the underlying character lists.
-/

/-- Embeds `QuantumOperationType` (src/server.py:36-47): the closed enumeration
of the ten supported operation kinds. -/
inductive QuantumOperationType
  | bell_state
  | quantum_fourier_transform
  | grover_search
  | quantum_teleportation
  | variational_quantum_eigensolver
  | quantum_approximate_optimization
  | custom_circuit
  | quantum_random
  | deutsch_jozsa
  | bernstein_vazirani
deriving DecidableEq

/-- Embeds `QuantumComputationRequest` (src/server.py:49-56).  The `parameters`
mapping is an association list of string keys and values (only string-valued
entries, in particular `input_state`, are ever consulted by the code). -/
structure QuantumComputationRequest where
  query : String
  operation_type : QuantumOperationType
  parameters : List (String × String)
  num_qubits : Nat := 2
  shots : Nat := 1024
deriving DecidableEq

/-- Lower-case a character list (embeds Python `str.lower` on the ASCII
alphabet actually used by the keyword sets). -/
def lowerL (s : List Char) : List Char := s.map Char.toLower

/-- Embeds Python `str.lower`. -/
def toLowerStr (s : String) : String := ⟨lowerL s.data⟩

/-- `startsL p l` is true when `p` is an initial segment of `l`. -/
def startsL : List Char → List Char → Bool
  | [], _ => true
  | _ :: _, [] => false
  | a :: as, b :: bs => a == b && startsL as bs

/-- `hasSubL p l` is true when `p` occurs contiguously somewhere in `l`. -/
def hasSubL (p : List Char) : List Char → Bool
  | [] => p.isEmpty
  | c :: rest => startsL p (c :: rest) || hasSubL p rest

/-- Embeds the Python substring operator `needle in hay`. -/
def containsSub (needle hay : String) : Bool := hasSubL needle.data hay.data

/-- Numeric value of a run of decimal digits (embeds Python `int` applied to a
digit string). -/
def digitsVal (ds : List Char) : Nat :=
  ds.foldl (fun n c => n * 10 + (c.toNat - 48)) 0

/-- Embeds `re.findall(r'\d+', query)` followed by `int(numbers[0])`: the value
of the first maximal run of decimal digits, if any. -/
def firstNumber : List Char → Option Nat
  | [] => none
  | c :: cs =>
    if c.isDigit then some (digitsVal (List.takeWhile Char.isDigit (c :: cs)))
    else firstNumber cs

/-- Embeds `process_query_locally` (src/server.py:384-416): the deterministic
fallback classifier.  Keyword sets and their precedence are as in the source;
the first-integer extraction runs on the raw query (digits are unaffected by
lower-casing), capped at 5, defaulting to 3. -/
def process_query_locally (query : String) : QuantumComputationRequest :=
  let query_lower := toLowerStr query
  if (["bell", "entangl", "epr"] : List String).any (fun w => containsSub w query_lower) then
    { query := query, operation_type := .bell_state, parameters := [], num_qubits := 2 }
  else if (["random", "rng", "number"] : List String).any (fun w => containsSub w query_lower) then
    let num_qubits :=
      match firstNumber query.data with
      | some n => min n 5
      | none => 3
    { query := query, operation_type := .quantum_random, parameters := [], num_qubits := num_qubits }
  else
    { query := query, operation_type := .bell_state, parameters := [], num_qubits := 2 }

/-- Gate vocabulary of the circuits the server builds (Hadamard, Pauli-X,
controlled-NOT, the controlled-phase and swap of the 2-qubit QFT, a barrier,
and the terminal measure-all marker of `measure_all`). -/
inductive Gate
  | h (q : Nat)
  | x (q : Nat)
  | cx (c t : Nat)
  | cp (c t : Nat)
  | swap (a b : Nat)
  | barrier
  | measureAll
deriving DecidableEq

/-- Embeds qiskit's `QuantumCircuit`: qubit count, classical-bit count and the
ordered gate list. -/
structure QuantumCircuit where
  num_qubits : Nat
  num_clbits : Nat
  gates : List Gate := []
deriving DecidableEq

/-- True for the gates acting on two qubits. -/
def isTwoQubitGate : Gate → Bool
  | .cx _ _ | .cp _ _ | .swap _ _ => true
  | _ => false

/-- True for Hadamard gates. -/
def isHGate : Gate → Bool
  | .h _ => true
  | _ => false

/-- Qubits an instruction occupies in depth scheduling (barriers are
directives and occupy none; `measure_all` touches every qubit). -/
def touchedQubits (n : Nat) : Gate → List Nat
  | .h q => [q]
  | .x q => [q]
  | .cx c t => [c, t]
  | .cp c t => [c, t]
  | .swap a b => [a, b]
  | .barrier => []
  | .measureAll => List.range n

/-- One scheduling step of the depth computation: the instruction lands on
layer one past the deepest layer of the qubits it touches. -/
def depthStep (n : Nat) (levels : Nat → Nat) (g : Gate) : Nat → Nat :=
  let qs := touchedQubits n g
  if qs.isEmpty then levels
  else
    let lvl := 1 + (qs.map levels).foldl max 0
    fun q => if qs.contains q then lvl else levels q

/-- Embeds qiskit's `QuantumCircuit.depth()`: the length of the longest chain
of instructions sharing qubits (directives excluded). -/
def QuantumCircuit.depth (c : QuantumCircuit) : Nat :=
  let final := c.gates.foldl (depthStep c.num_qubits) (fun _ => 0)
  ((List.range c.num_qubits).map final).foldl max 0

/-- Embeds qiskit's `QuantumCircuit.width()`: qubits plus classical bits. -/
def QuantumCircuit.width (c : QuantumCircuit) : Nat := c.num_qubits + c.num_clbits

/-- Embeds `extract_input_state_from_query` (src/server.py:418-436): scan the
query for one of the four recognized input-state patterns, defaulting to the
0&2 superposition. -/
def extract_input_state_from_query (query : String) : String :=
  if containsSub "|00⟩ + |10⟩" query || containsSub "|00> + |10>" query then
    "superposition_0_2"
  else if containsSub "|0⟩ + |2⟩" query || containsSub "|0> + |2>" query then
    "superposition_0_2"
  else if containsSub "|01⟩ + |11⟩" query || containsSub "|01> + |11>" query then
    "superposition_1_3"
  else if containsSub "|0⟩ + |1⟩" query || containsSub "|0> + |1>" query then
    "superposition_0_1"
  else if containsSub "equal superposition" (toLowerStr query) then
    "equal_superposition"
  else
    "superposition_0_2"

/-- Association-list lookup embedding Python `dict.get` on the `parameters`
mapping. -/
def lookupParam (ps : List (String × String)) (k : String) : Option String :=
  match ps.find? (fun p => p.fst == k) with
  | some p => some p.snd
  | none => none

/-- Modelled from the spec: `apply_2qubit_qft` is called at src/server.py:464
but is defined nowhere in the repository sources.  Spec section 4.2 describes
it as "a fixed 2-qubit Quantum Fourier Transform gate sequence"; the canonical
such sequence is Hadamard on qubit 1, a controlled phase between the two
qubits, Hadamard on qubit 0, and a final swap. -/
def qft2Gates : List Gate := [.h 1, .cp 0 1, .h 0, .swap 0 1]

/-- Modelled from the spec: the body of the missing `apply_2qubit_qft`,
appending the fixed 2-qubit QFT gate sequence to a circuit. -/
def apply_2qubit_qft (c : QuantumCircuit) : QuantumCircuit :=
  { c with gates := c.gates ++ qft2Gates }

/-- Modelled from the spec: the state-preparation stage of the missing
`create_qft_circuit_with_input_state`, keyed by the recognized input-state tag
(spec section 4.2: superposition of basis states 0&2, 1&3, 0&1, or the uniform
equal superposition; any unrecognized tag falls back to the default 0&2 case,
whose two-qubit state places the superposed bit on qubit 1). -/
def prepGates : String → List Gate
  | "superposition_1_3" => [.x 0, .h 1]
  | "superposition_0_1" => [.h 0]
  | "equal_superposition" => [.h 0, .h 1]
  | _ => [.h 1]

/-- Modelled from the spec: the input-state tag of a FourierTransform request
is taken from the request's parameter hint when present, otherwise from the
textual hint via `extract_input_state_from_query` (spec section 4.2: the
state-preparation stage is "determined by scanning the request's
textual/parameter hints"). -/
def qftInputTag (r : QuantumComputationRequest) : String :=
  match lookupParam r.parameters "input_state" with
  | some s => s
  | none => extract_input_state_from_query r.query

/-- Modelled from the spec: `create_qft_circuit_with_input_state` is called
from `create_quantum_circuit` (src/server.py:442) but is defined nowhere in
the repository sources.  Spec section 4.2 (FourierTransform): a two-stage
circuit — the state-preparation stage selected by the request's hints, then a
barrier, then the fixed 2-qubit QFT gate sequence, then measure all. -/
def create_qft_circuit_with_input_state (r : QuantumComputationRequest) : QuantumCircuit :=
  { num_qubits := 2, num_clbits := 2,
    gates := prepGates (qftInputTag r) ++ [.barrier] ++ qft2Gates ++ [.measureAll] }

/-- Embeds `create_quantum_circuit` (src/server.py:438-469).  The
FourierTransform and BellState branches return directly.  The QuantumRandom
branch builds the Hadamard layer but has no `return`, so control falls through
to the barrier / 2-qubit-QFT / measure-all tail at lines 460-467.  The final
`else` branch (lines 456-458) reads the local variable `circuit` before any
assignment and so raises `NameError` at run time; that branch is embedded as
`none`. -/
def create_quantum_circuit (request : QuantumComputationRequest) : Option QuantumCircuit :=
  if request.operation_type = .quantum_fourier_transform then
    some (create_qft_circuit_with_input_state request)
  else if request.operation_type = .bell_state then
    some { num_qubits := 2, num_clbits := 2, gates := [.h 0, .cx 0 1, .measureAll] }
  else if request.operation_type = .quantum_random then
    let circuit : QuantumCircuit :=
      { num_qubits := request.num_qubits, num_clbits := request.num_qubits,
        gates := (List.range request.num_qubits).map Gate.h }
    let circuit := { circuit with gates := circuit.gates ++ [Gate.barrier] }
    let circuit := apply_2qubit_qft circuit
    some { circuit with gates := circuit.gates ++ [Gate.measureAll] }
  else
    none

/-- Gate list of an optionally built circuit (empty when construction fails). -/
def gatesOf : Option QuantumCircuit → List Gate
  | some c => c.gates
  | none => []

/-- Credential environment read by `initialize_services`
(src/server.py:72-73): the optional OpenAI key and IBM Quantum token. -/
structure ServiceEnv where
  openai_key : Option String
  ibm_token : Option String
deriving DecidableEq

/-- Outcome of one IBM channel attempt in the loop at src/server.py:105-122:
the `QiskitRuntimeService` constructor may fail (no assignment), the
backend-listing test may fail after the assignment already happened, or the
attempt succeeds and the loop breaks. -/
inductive IBMChannelOutcome
  | constructFails
  | listFails
  | ok
deriving DecidableEq

/-- External environment of `initialize_services`: whether the `AerSimulator`
constructor succeeds, and the outcome of each IBM channel attempt.  The OpenAI
client constructor is a local object construction and always succeeds; its
subsequent test call only logs and never affects the stored handle. -/
structure InitWorld where
  aerOk : Bool
  ibmOutcome : String → IBMChannelOutcome

/-- Embeds the module-level service globals (src/server.py:62-65).  External
handle constructions are modelled as allocations of fresh identifiers:
`allocCount` counts constructions performed so far, and each construction
stores the current counter as the new handle and increments it, so two
constructions never yield the same handle. -/
structure ServiceState where
  openai_client : Option Nat := none
  ibm_service : Option Nat := none
  simulator : Option Nat := none
  allocCount : Nat := 0
deriving DecidableEq

/-- The IBM channel list tried in order (src/server.py:103). -/
def ibmChannels : List String := ["ibm_quantum_platform", "ibm_cloud", "ibm_quantum"]

/-- Embeds the channel loop of `initialize_services` (src/server.py:105-122):
construct the runtime service for each channel in turn; a construction failure
leaves the handle untouched and continues; a listing failure after
construction leaves the freshly assigned handle in place and continues; a full
success assigns the handle and breaks. -/
def tryIBMChannels (w : InitWorld) : List String → ServiceState → ServiceState
  | [], st => st
  | ch :: rest, st =>
    match w.ibmOutcome ch with
    | .constructFails => tryIBMChannels w rest st
    | .listFails =>
      tryIBMChannels w rest
        { st with ibm_service := some st.allocCount, allocCount := st.allocCount + 1 }
    | .ok => { st with ibm_service := some st.allocCount, allocCount := st.allocCount + 1 }

/-- Embeds `initialize_services` (src/server.py:67-125; the token-identical
duplicate definition at lines 126-184 shadows it with the same behavior).
Every call unconditionally re-runs the constructions: a fresh `AerSimulator`
(returning `False` immediately if that fails), then, when the respective
credential is present, a fresh OpenAI client and the IBM channel loop.  The
returned flag is `simulator is not None`. -/
def initialize_services (env : ServiceEnv) (w : InitWorld) (st₀ : ServiceState) :
    ServiceState × Bool :=
  if !w.aerOk then (st₀, false)
  else
    let st := { st₀ with simulator := some st₀.allocCount, allocCount := st₀.allocCount + 1 }
    let st :=
      match env.openai_key with
      | none => st
      | some _ => { st with openai_client := some st.allocCount, allocCount := st.allocCount + 1 }
    let st :=
      match env.ibm_token with
      | none => st
      | some _ => tryIBMChannels w ibmChannels st
    (st, st.simulator.isSome)

/-- Embeds an IBM backend as seen by `execute_quantum` (src/server.py:481-487):
name, operational status, simulator flag and pending-job queue length. -/
structure Backend where
  name : String
  operational : Bool
  simulator : Bool
  pending_jobs : Nat
deriving DecidableEq

/-- Stable insertion of a backend into a list sorted by `pending_jobs`
(embeds Python's stable `list.sort(key=lambda b: b.status().pending_jobs)`). -/
def insertByPending (b : Backend) : List Backend → List Backend
  | [] => [b]
  | c :: cs =>
    if c.pending_jobs ≤ b.pending_jobs then c :: insertByPending b cs
    else b :: c :: cs

/-- Sort backends ascending by pending-job count (src/server.py:486). -/
def sortByPending (bs : List Backend) : List Backend :=
  bs.foldl (fun acc b => insertByPending b acc) []

/-- Measurement histogram: bitstring to count. -/
abbrev Counts := List (String × Nat)

/-- Opaque third-party capabilities consumed by `execute_quantum`:
transpilation to a backend's native gate set, remote sampling (where `none`
models any exception — auth failure, submission error — swallowed by the
`except` at src/server.py:508), and the local Aer simulation. -/
structure QuantumWorld where
  transpileFn : QuantumCircuit → Backend → QuantumCircuit
  hwRun : QuantumCircuit → Backend → Nat → Option Counts
  simRun : QuantumCircuit → Nat → Counts

/-- Embeds the result dictionaries returned by `execute_quantum`
(src/server.py:497-504 and 516-523). -/
structure ExecutionResult where
  backend : String
  backend_type : String
  shots : Nat
  counts : Counts
  circuit_depth : Nat
  circuit_width : Nat
deriving DecidableEq

/-- Embeds `execute_quantum` (src/server.py:471-523).  With a remote-service
handle present it filters the operational non-simulator backends, sorts by
queue length, transpiles for the chosen backend and samples there, reporting
the transpiled circuit's depth and width; any failure falls through to the
local tier, which runs the original circuit on the Aer simulator and reports
the original circuit's depth and width. -/
def execute_quantum (w : QuantumWorld) (ibm_service : Option (List Backend))
    (circuit : QuantumCircuit) (shots : Nat) : ExecutionResult :=
  let localResult : ExecutionResult :=
    { backend := "aer_simulator", backend_type := "🖥️  Local Simulator", shots := shots,
      counts := w.simRun circuit shots,
      circuit_depth := circuit.depth, circuit_width := circuit.width }
  match ibm_service with
  | none => localResult
  | some allBackends =>
    let backends := allBackends.filter (fun b => b.operational && !b.simulator)
    match sortByPending backends with
    | [] => localResult
    | backend :: _ =>
      let transpiled := w.transpileFn circuit backend
      match w.hwRun transpiled backend shots with
      | some counts =>
        { backend := backend.name, backend_type := "🌟 IBM Quantum Hardware", shots := shots,
          counts := counts,
          circuit_depth := transpiled.depth, circuit_width := transpiled.width }
      | none => localResult

/-- Embeds `process_query_with_openai` (src/server.py:328-382): when a
language-model client handle is present, the model's parsed JSON reply
(operation, parameters, qubit count) builds the request; any failure — network
error, parse error, unknown operation string, modelled as `none` — silently
falls back to `process_query_locally`, as does the absence of a client. -/
def process_query_with_openai
    (llm : String → Option (QuantumOperationType × List (String × String) × Nat))
    (openai_client : Option Nat) (query : String) : QuantumComputationRequest :=
  match openai_client with
  | some _ =>
    match llm query with
    | some (op, ps, n) => { query := query, operation_type := op, parameters := ps, num_qubits := n }
    | none => process_query_locally query
  | none => process_query_locally query

/-- Phases of the classify → build → execute → format chain inside
`handle_quantum_compute`, recorded to observe which of them a call reaches. -/
inductive ChainStep
  | initServices
  | classify
  | build
  | execute
  | format
deriving DecidableEq

/-- Outcome of one `quantum_compute` tool call: a direct text reply, the
structured report handed to `format_results`, or an exception propagating out
of the handler (caught upstream by `handle_call_tool`). -/
inductive ToolOutcome
  | text (s : String)
  | report (req : QuantumComputationRequest) (circuit : QuantumCircuit) (res : ExecutionResult)
  | raised (msg : String)
deriving DecidableEq

/-- The full external environment of one `quantum_compute` tool call: the
service-construction world, the backend list a constructed IBM handle would
see, the language-model oracle and the execution capabilities. -/
structure ToolWorld where
  init : InitWorld
  ibmBackends : List Backend
  llm : String → Option (QuantumOperationType × List (String × String) × Nat)
  qw : QuantumWorld

/-- Embeds `handle_quantum_compute` (src/server.py:252-281).  The guard on the
`query` argument (`arguments.get("query", "")` followed by `if not query`)
precedes everything else; the duplicated guard at lines 259-260 is a verbatim
repeat of lines 257-258 and collapses to one check, while the duplicated
initialization block at lines 265-267 genuinely runs `initialize_services` a
second time and is embedded as such.  The success path returns the structured
chain outcome that `format_results` renders; a circuit-construction failure
(the `NameError` cases of `create_quantum_circuit`) propagates out as
`raised`.  The second component lists the chain phases that were entered. -/
def handle_quantum_compute (w : ToolWorld) (env : ServiceEnv) (st : ServiceState)
    (queryArg : Option String) (shotsArg : Option Nat) : ToolOutcome × List ChainStep :=
  let query := queryArg.getD ""
  let shots := shotsArg.getD 1024
  if query = "" then (.text "Missing required parameter: query", [])
  else
    let r₁ := initialize_services env w.init st
    if !r₁.snd then
      (.text "Failed to initialize quantum services - check that qiskit-aer is installed",
       [.initServices])
    else
      let r₂ := initialize_services env w.init r₁.fst
      if !r₂.snd then
        (.text "Failed to initialize quantum services - check that qiskit-aer is installed",
         [.initServices])
      else
        let req := process_query_with_openai w.llm r₂.fst.openai_client query
        match create_quantum_circuit req with
        | none => (.raised "NameError", [.initServices, .classify, .build])
        | some circuit =>
          let ibm := r₂.fst.ibm_service.map (fun _ => w.ibmBackends)
          let res := execute_quantum w.qw ibm circuit shots
          (.report req circuit res, [.initServices, .classify, .build, .execute, .format])

/-- Embeds `get_input_state_description` (src/server.py:578-586). -/
def get_input_state_description (input_state : String) : String :=
  match input_state with
  | "superposition_0_2" => "|ψ⟩ = (1/√2)(|00⟩ + |10⟩) - States 0 and 2"
  | "superposition_1_3" => "|ψ⟩ = (1/√2)(|01⟩ + |11⟩) - States 1 and 3"
  | "superposition_0_1" => "|ψ⟩ = (1/√2)(|0⟩ + |1⟩) - Single qubit superposition"
  | "equal_superposition" => "|ψ⟩ = (1/2)(|00⟩ + |01⟩ + |10⟩ + |11⟩) - All states"
  | _ => "Custom superposition state"

/-- Embeds `analyze_qft_frequencies` (src/server.py:588-642): a canned
narrative selected by the input-state tag alone — the `counts` argument is
never consulted by any branch. -/
def analyze_qft_frequencies (input_state : String) (counts : Counts) : String :=
  match input_state, counts with
  | "superposition_0_2", _ => "
🎯 **Expected QFT Result for |ψ⟩ = (1/√2)(|00⟩ + |10⟩)**:

📊 **Theoretical Prediction**:
  • |00⟩: 50% (k=0, DC component)
  • |01⟩: 0%  (k=1, forbidden by symmetry)
  • |10⟩: 50% (k=2, Nyquist frequency)
  • |11⟩: 0%  (k=3, forbidden by symmetry)

🔍 **Frequency Interpretation**:
  • **k=0 (|00⟩)**: DC/constant component
  • **k=2 (|10⟩)**: Maximum frequency (period-2 oscillation)
  • **k=1,3**: Absent due to even-parity symmetry

⚡ **Key Insight**: This state has perfect frequency filtering!
   Only DC and Nyquist frequency components are present.

🌟 **Remarkable Property**: QFT(|ψ⟩) = |ψ⟩
   This input state is an eigenstate of the QFT operator!
"
  | "superposition_1_3", _ => "
🎯 **Expected QFT Result for |ψ⟩ = (1/√2)(|01⟩ + |11⟩)**:

📊 **Theoretical Prediction**:
  • |00⟩: 0%  (k=0, forbidden)
  • |01⟩: 50% (k=1, fundamental frequency)
  • |10⟩: 0%  (k=2, forbidden)
  • |11⟩: 50% (k=3, high frequency)

🔍 **Frequency Interpretation**:
  • Shows odd-parity frequency components only
  • Complementary to the even-parity case
"
  | "equal_superposition", _ => "
🎯 **Expected QFT Result for Equal Superposition**:

📊 **Theoretical Prediction**:
  • |00⟩: 100% (only k=0 survives)
  • All other states: 0%

🔍 **Frequency Interpretation**:
  • Pure DC component only
  • All frequency information washed out by averaging
"
  | _, _ => "Custom state frequency analysis not available."

/-- Embeds the input-state selection of `format_qft_results`
(src/server.py:536): `request.parameters.get('input_state',
'superposition_0_2')`. -/
def qft_input_state_of (request : QuantumComputationRequest) : String :=
  (lookupParam request.parameters "input_state").getD "superposition_0_2"

/-- Embeds the two selection points of `format_qft_results`
(src/server.py:545 and 568): the rendered report interpolates the input-state
description and the frequency-analysis narrative, both keyed by the tag
`qft_input_state_of` computes; the surrounding fixed text and numeric tables
of the report do not depend on the input state. -/
def format_qft_selected_narrative (request : QuantumComputationRequest) (counts : Counts) :
    String × String :=
  (get_input_state_description (qft_input_state_of request),
   analyze_qft_frequencies (qft_input_state_of request) counts)

/-- An execution world used to instantiate theorems at concrete inputs: the
compilation map doubles the gate list (any depth-changing compilation
exhibits the tier asymmetry), and both samplers report all shots on the
all-zeros bitstring. -/
def sampleQuantumWorld : QuantumWorld :=
  { transpileFn := fun c _ => { c with gates := c.gates ++ c.gates },
    hwRun := fun _ _ shots => some [("00", shots)],
    simRun := fun _ shots => [("00", shots)] }

/-- An operational, non-simulator remote backend with an empty queue. -/
def sampleBackend : Backend := ⟨"ibm_sample", true, false, 0⟩

/-- The Bell circuit the builder produces, used as a concrete input. -/
def sampleBellCircuit : QuantumCircuit := ⟨2, 2, [.h 0, .cx 0 1, .measureAll]⟩

/-- A concrete tool-call world: working simulator constructor, no usable IBM
channel, no remote backends, and a language-model oracle that always fails. -/
def sampleToolWorld : ToolWorld :=
  { init := { aerOk := true, ibmOutcome := fun _ => .constructFails },
    ibmBackends := [],
    llm := fun _ => none,
    qw := sampleQuantumWorld }

/-- Claim C1 (code bug): the claim — and the repository's own test
`test_quantum_random_circuit_creation` — say a RandomNumber request with
qubit_count = N builds a circuit of exactly N Hadamard gates with no two-qubit
gates.  Evaluating the embedded builder at the failing input N = 3 shows the
QuantumRandom branch falling through into the QFT tail: the gate list carries
a barrier and the 2-qubit QFT sequence after the Hadamard layer, so it
contains two-qubit gates and five rather than three Hadamards. -/
theorem create_quantum_circuit_random_code_bug :
    gatesOf (create_quantum_circuit
      { query := "Generate random numbers with 3 qubits",
        operation_type := .quantum_random, parameters := [], num_qubits := 3 }) =
      [.h 0, .h 1, .h 2, .barrier, .h 1, .cp 0 1, .h 0, .swap 0 1, .measureAll] ∧
    (gatesOf (create_quantum_circuit
      { query := "Generate random numbers with 3 qubits",
        operation_type := .quantum_random, parameters := [], num_qubits := 3 })).any
        isTwoQubitGate = true ∧
    (gatesOf (create_quantum_circuit
      { query := "Generate random numbers with 3 qubits",
        operation_type := .quantum_random, parameters := [], num_qubits := 3 })).countP
        isHGate ≠ 3 := by
  decide

/-- Claim C6: a BellState request builds, for every requested qubit count, the
fixed 2-qubit 2-clbit circuit of exactly one Hadamard on qubit 0 and one
controlled-NOT with control 0 and target 1, followed by measurement of all
qubits. -/
theorem create_quantum_circuit_bell (query : String) (params : List (String × String))
    (n shots : Nat) :
    create_quantum_circuit ⟨query, .bell_state, params, n, shots⟩ =
      some { num_qubits := 2, num_clbits := 2, gates := [.h 0, .cx 0 1, .measureAll] } := rfl

/-- Claim C3: a FourierTransform request builds the two-stage circuit — the
state-preparation stage selected by the request's parameter/textual hints,
then a barrier, then the fixed 2-qubit QFT gate sequence, then measurement of
all qubits — and the textual scan always lands on one of the four canonical
input-state tags (with `superposition_0_2` as the default case of the scan). -/
theorem create_quantum_circuit_qft_two_stage (query : String)
    (params : List (String × String)) (n shots : Nat) :
    create_quantum_circuit ⟨query, .quantum_fourier_transform, params, n, shots⟩ =
      some { num_qubits := 2, num_clbits := 2,
             gates := prepGates (qftInputTag ⟨query, .quantum_fourier_transform, params, n, shots⟩)
               ++ [Gate.barrier] ++ qft2Gates ++ [Gate.measureAll] } ∧
    extract_input_state_from_query query ∈
      (["superposition_0_2", "superposition_1_3", "superposition_0_1",
        "equal_superposition"] : List String) := by
  refine ⟨rfl, ?_⟩
  unfold extract_input_state_from_query
  split_ifs <;> decide

/-- Claim C4 counterexample: the deterministic fallback can return a request
with qubit_count = 0, violating the claimed invariant qubit_count ≥ 1 — the
RandomNumber path takes the first integer literal of the query, and the query
"generate 0 random numbers" makes that literal 0. -/
theorem process_query_locally_zero_qubits :
    (process_query_locally "generate 0 random numbers").num_qubits = 0 := by decide

/-- Claim C4 as amended: the fallback classifier returns qubit_count ≥ 1 for
every query whose first integer literal (if any) is nonzero; only a
RandomNumber-matching query whose first integer literal is 0 yields
qubit_count = 0. -/
theorem process_query_locally_num_qubits_pos (query : String)
    (h : firstNumber query.data ≠ some 0) :
    1 ≤ (process_query_locally query).num_qubits := by
  unfold process_query_locally
  simp only [List.any_cons, List.any_nil, Bool.or_false, Bool.or_assoc]
  split_ifs
  · simp
  · rcases hf : firstNumber query.data with _ | n
    · simp [hf]
    · have hn : n ≠ 0 := by rintro rfl; exact h hf
      simp only [hf]
      show 1 ≤ min n 5
      omega
  · simp

/-- Witness for the amended C4 theorem at a concrete query. -/
theorem process_query_locally_num_qubits_pos_witness :
    firstNumber ("Generate random numbers with 3 qubits" : String).data ≠ some 0 ∧
    1 ≤ (process_query_locally "Generate random numbers with 3 qubits").num_qubits :=
  ⟨by decide,
   process_query_locally_num_qubits_pos "Generate random numbers with 3 qubits" (by decide)⟩

/-- Claim C5: with no language-model handle the classifier is the pure
function `process_query_locally`, so the same input text always yields the
same pair, and its value follows the claimed precedence — bell/entangl/epr
keywords first (BellState, 2 qubits), then random/rng/number (RandomNumber,
first integer literal capped at 5, default 3), then the BellState default. -/
theorem process_query_locally_spec (query : String) :
    process_query_locally query =
      (if containsSub "bell" (toLowerStr query) || containsSub "entangl" (toLowerStr query)
          || containsSub "epr" (toLowerStr query) then
        { query := query, operation_type := .bell_state, parameters := [], num_qubits := 2 }
      else if containsSub "random" (toLowerStr query) || containsSub "rng" (toLowerStr query)
          || containsSub "number" (toLowerStr query) then
        { query := query, operation_type := .quantum_random, parameters := [],
          num_qubits := match firstNumber query.data with | some n => min n 5 | none => 3 }
      else
        { query := query, operation_type := .bell_state, parameters := [], num_qubits := 2 }) := by
  unfold process_query_locally
  simp only [List.any_cons, List.any_nil, Bool.or_false, Bool.or_assoc]

/-- Claim C7: with no remote-backend handle, `execute_quantum` reaches the
local tier and returns the `aer_simulator` identity, the LocalSimulator tag,
the requested shot count, counts computed by running the supplied circuit on
the local simulator, and the original circuit's depth and width — for every
execution world, so the result cannot depend on any network capability. -/
theorem execute_quantum_no_ibm_local_tier (w : QuantumWorld) (circuit : QuantumCircuit)
    (shots : Nat) :
    execute_quantum w none circuit shots =
      { backend := "aer_simulator", backend_type := "🖥️  Local Simulator", shots := shots,
        counts := w.simRun circuit shots,
        circuit_depth := circuit.depth, circuit_width := circuit.width } := rfl

/-- Claim C8: when the `query` argument is absent or the empty string,
`handle_quantum_compute` returns exactly the literal missing-parameter text
and enters none of the chain phases — no service initialization, no
classification, no circuit construction, no execution, no formatting. -/
theorem handle_quantum_compute_missing_query (w : ToolWorld) (env : ServiceEnv)
    (st : ServiceState) (shotsArg : Option Nat) (queryArg : Option String)
    (h : queryArg = none ∨ queryArg = some "") :
    handle_quantum_compute w env st queryArg shotsArg =
      (.text "Missing required parameter: query", []) := by
  rcases h with h | h <;> subst h <;> rfl

/-- Witness for the C8 theorem: the empty-string query at a concrete world. -/
theorem handle_quantum_compute_missing_query_witness :
    handle_quantum_compute sampleToolWorld ⟨none, none⟩ {} (some "") none =
      (.text "Missing required parameter: query", []) :=
  handle_quantum_compute_missing_query sampleToolWorld ⟨none, none⟩ {} none (some "")
    (Or.inr rfl)

/-- Claim C9: the fallback classifier always attaches an empty parameter map,
and the Fourier formatter keys its input-state description and frequency
narrative solely on the `input_state` parameter with `superposition_0_2` as
the default — so a fallback-classified request rendered along the Fourier path
always gets the 0&2-case description and narrative, whatever input state the
query text described. -/
theorem qft_narrative_default_for_fallback (query : String) (counts : Counts) :
    (process_query_locally query).parameters = [] ∧
    format_qft_selected_narrative
      { process_query_locally query with operation_type := .quantum_fourier_transform } counts =
      (get_input_state_description "superposition_0_2",
       analyze_qft_frequencies "superposition_0_2" counts) := by
  have hp : (process_query_locally query).parameters = [] := by
    unfold process_query_locally
    simp only [List.any_cons, List.any_nil, Bool.or_false, Bool.or_assoc]
    split_ifs <;> rfl
  refine ⟨hp, ?_⟩
  simp [format_qft_selected_narrative, qft_input_state_of, lookupParam, hp]

/-- The IBM channel loop never touches the simulator handle. -/
theorem tryIBMChannels_simulator (w : InitWorld) (chs : List String) (st : ServiceState) :
    (tryIBMChannels w chs st).simulator = st.simulator := by
  induction chs generalizing st with
  | nil => rfl
  | cons ch rest ih =>
    unfold tryIBMChannels
    cases w.ibmOutcome ch <;> simp [ih]

/-- The IBM channel loop never decreases the construction counter. -/
theorem tryIBMChannels_allocCount (w : InitWorld) (chs : List String) (st : ServiceState) :
    st.allocCount ≤ (tryIBMChannels w chs st).allocCount := by
  induction chs generalizing st with
  | nil => exact Nat.le_refl _
  | cons ch rest ih =>
    unfold tryIBMChannels
    cases w.ibmOutcome ch <;> (try dsimp only)
    · exact ih st
    · exact Nat.le_trans (Nat.le_succ _)
        (ih { st with ibm_service := some st.allocCount, allocCount := st.allocCount + 1 })
    · exact Nat.le_succ _

/-- Unfolding of `initialize_services` when the simulator constructor works:
the simulator allocation, then the optional OpenAI allocation, then the IBM
channel loop. -/
theorem initialize_services_unfold (env : ServiceEnv) (ibmF : String → IBMChannelOutcome)
    (st : ServiceState) :
    initialize_services env ⟨true, ibmF⟩ st =
      (let st1 : ServiceState :=
        { st with simulator := some st.allocCount, allocCount := st.allocCount + 1 }
       let st2 : ServiceState :=
        match env.openai_key with
        | none => st1
        | some _ => { st1 with openai_client := some st1.allocCount,
                               allocCount := st1.allocCount + 1 }
       let st3 : ServiceState :=
        match env.ibm_token with
        | none => st2
        | some _ => tryIBMChannels ⟨true, ibmF⟩ ibmChannels st2
       (st3, st3.simulator.isSome)) := rfl

/-- One call of `initialize_services` with a working simulator constructor:
the stored simulator handle is the freshly allocated identifier (the
construction counter at entry), the counter strictly grows, and the call
reports success. -/
theorem initialize_services_fields (env : ServiceEnv) (ibmF : String → IBMChannelOutcome)
    (st : ServiceState) :
    (initialize_services env ⟨true, ibmF⟩ st).fst.simulator = some st.allocCount ∧
    st.allocCount < (initialize_services env ⟨true, ibmF⟩ st).fst.allocCount ∧
    (initialize_services env ⟨true, ibmF⟩ st).snd = true := by
  obtain ⟨ok, it⟩ := env
  simp only [initialize_services_unfold]
  cases ok <;> cases it <;> (try dsimp only)
  · exact ⟨rfl, Nat.lt_succ_self _, rfl⟩
  · refine ⟨?_, ?_, ?_⟩
    · rw [tryIBMChannels_simulator]
    · exact Nat.lt_of_lt_of_le (Nat.lt_succ_self _)
        (tryIBMChannels_allocCount ⟨true, ibmF⟩ ibmChannels
          { st with simulator := some st.allocCount, allocCount := st.allocCount + 1 })
    · rw [tryIBMChannels_simulator]
      rfl
  · exact ⟨rfl, by show st.allocCount < st.allocCount + 1 + 1; omega, rfl⟩
  · refine ⟨?_, ?_, ?_⟩
    · rw [tryIBMChannels_simulator]
    · refine Nat.lt_of_lt_of_le ?_ (tryIBMChannels_allocCount _ _ _)
      show st.allocCount < st.allocCount + 1 + 1
      omega
    · rw [tryIBMChannels_simulator]
      rfl

/-- Claim C2 counterexample: with identical credentials (here: none set) and a
working simulator constructor, the second call of `initialize_services` is not
a no-op returning the cached handle — it constructs a fresh simulator handle
distinct from the first call's, and after two calls two constructions have
been performed. -/
theorem initialize_services_not_idempotent :
    (initialize_services ⟨none, none⟩ ⟨true, fun _ => .constructFails⟩
        (initialize_services ⟨none, none⟩ ⟨true, fun _ => .constructFails⟩ {}).fst).fst.simulator ≠
      (initialize_services ⟨none, none⟩ ⟨true, fun _ => .constructFails⟩
        ({} : ServiceState)).fst.simulator ∧
    (initialize_services ⟨none, none⟩ ⟨true, fun _ => .constructFails⟩
        (initialize_services ⟨none, none⟩ ⟨true, fun _ => .constructFails⟩ {}).fst).fst.allocCount = 2 := by
  decide

/-- Claim C2 as amended: repeated calls of `initialize_services` with
identical credentials return the same success flag and leave a simulator
handle present, but each call re-runs construction rather than reusing a
cache — the second call strictly increases the number of constructions
performed and overwrites the simulator handle with a fresh, different one. -/
theorem initialize_services_reconstructs (env : ServiceEnv)
    (ibmF : String → IBMChannelOutcome) (st : ServiceState) :
    ((initialize_services env ⟨true, ibmF⟩
        (initialize_services env ⟨true, ibmF⟩ st).fst).snd =
      (initialize_services env ⟨true, ibmF⟩ st).snd) ∧
    (initialize_services env ⟨true, ibmF⟩ st).fst.allocCount <
      (initialize_services env ⟨true, ibmF⟩
        (initialize_services env ⟨true, ibmF⟩ st).fst).fst.allocCount ∧
    (initialize_services env ⟨true, ibmF⟩
        (initialize_services env ⟨true, ibmF⟩ st).fst).fst.simulator ≠
      (initialize_services env ⟨true, ibmF⟩ st).fst.simulator := by
  obtain ⟨h1sim, h1lt, h1ok⟩ := initialize_services_fields env ibmF st
  obtain ⟨h2sim, h2lt, h2ok⟩ :=
    initialize_services_fields env ibmF (initialize_services env ⟨true, ibmF⟩ st).fst
  refine ⟨by rw [h1ok, h2ok], h2lt, ?_⟩
  rw [h1sim, h2sim]
  intro heq
  exact Nat.ne_of_gt h1lt (Option.some.inj heq)

/-- Claim C10: circuit depth and width are not reported uniformly across the
execution tiers.  When the remote-hardware tier succeeds the result carries
the depth and width of the transpiled circuit; the local tier carries those of
the original untranspiled circuit; and at a concrete depth-changing
compilation map the two tiers report different depths for the same input
circuit. -/
theorem execute_quantum_depth_width_tiers :
    (∀ (w : QuantumWorld) (nm : String) (pj : Nat) (cnts : Counts)
        (circuit : QuantumCircuit) (shots : Nat),
      w.hwRun (w.transpileFn circuit ⟨nm, true, false, pj⟩) ⟨nm, true, false, pj⟩ shots =
          some cnts →
        (execute_quantum w (some [⟨nm, true, false, pj⟩]) circuit shots).circuit_depth =
          (w.transpileFn circuit ⟨nm, true, false, pj⟩).depth ∧
        (execute_quantum w (some [⟨nm, true, false, pj⟩]) circuit shots).circuit_width =
          (w.transpileFn circuit ⟨nm, true, false, pj⟩).width) ∧
    (∀ (w : QuantumWorld) (circuit : QuantumCircuit) (shots : Nat),
      (execute_quantum w none circuit shots).circuit_depth = circuit.depth ∧
      (execute_quantum w none circuit shots).circuit_width = circuit.width) ∧
    (execute_quantum sampleQuantumWorld (some [sampleBackend]) sampleBellCircuit 7).circuit_depth ≠
      (execute_quantum sampleQuantumWorld none sampleBellCircuit 7).circuit_depth := by
  refine ⟨?_, ?_, ?_⟩
  · intro w nm pj cnts circuit shots h
    unfold execute_quantum
    simp only [List.filter, sortByPending, insertByPending, List.foldl]
    rw [h]
    exact ⟨rfl, rfl⟩
  · intro w circuit shots
    exact ⟨rfl, rfl⟩
  · decide

/-- Witness for the C10 theorem: the hardware-tier conjunct applied at the
concrete sample world, backend and circuit, its sampling hypothesis
discharged by evaluation. -/
theorem execute_quantum_depth_width_tiers_witness :
    (execute_quantum sampleQuantumWorld (some [sampleBackend]) sampleBellCircuit 7).circuit_depth =
      (sampleQuantumWorld.transpileFn sampleBellCircuit sampleBackend).depth :=
  (execute_quantum_depth_width_tiers.1 sampleQuantumWorld "ibm_sample" 0 [("00", 7)]
    sampleBellCircuit 7 rfl).1
